import Mathlib

/-!
A shallow embedding of `src/esim.py`: the `eSIM` profile record and its
methods, the identifier/key generators, and the GUI controller's state
(`esims` list, `selected_esim`) together with the command handlers that
mutate it.  Python's mutable objects become explicit state passing; the
random source (`random.randint`, `uuid`/`sha256` digests) and the clock
(`datetime.now().strftime`) become explicit parameters.  Python defines
`simulate_data_usage`, `create_new_esim`, `change_operator` and
`reset_data` twice in the class body; under last-definition-wins only the
final versions are live, and those are the ones embedded here.
-/

namespace Esim

/-- One subscriber-identity record, mirroring the fields set in
`eSIM.__init__`.  Usage amounts are modelled as integers (every live call
site passes an integer amount). -/
structure ESIM where
  imsi : String
  iccid : String
  msisdn : String
  operator : String
  profile_state : String
  ki : String
  opc : String
  data_usage : Int
  data_limit : Int
  events : List String
  deriving Repr, DecidableEq

/-- Embeds `eSIM.log_event`: appends `f"[{timestamp}] {description}"` to the
event history; the timestamp string is an explicit parameter. -/
def ESIM.log_event (e : ESIM) (ts description : String) : ESIM :=
  { e with events := e.events ++ ["[" ++ ts ++ "] " ++ description] }

/-- Embeds `eSIM.activate`: if the state is not `"Active"`, set it to `"Active"`,
log `"Activation du profil"` and return `True`; otherwise return `False`. -/
def ESIM.activate (e : ESIM) (ts : String) : ESIM × Bool :=
  if e.profile_state ≠ "Active" then
    (({ e with profile_state := "Active" }).log_event ts "Activation du profil", true)
  else
    (e, false)

/-- Embeds `eSIM.deactivate`: if the state is not `"Inactive"`, set it to
`"Inactive"`, log `"Désactivation du profil"` and return `True`. -/
def ESIM.deactivate (e : ESIM) (ts : String) : ESIM × Bool :=
  if e.profile_state ≠ "Inactive" then
    (({ e with profile_state := "Inactive" }).log_event ts "Désactivation du profil", true)
  else
    (e, false)

/-- Embeds `eSIM.disable`: if the state is not `"Disabled"`, set it to
`"Disabled"`, log `"Désactivation définitive du profil"` and return `True`. -/
def ESIM.disable (e : ESIM) (ts : String) : ESIM × Bool :=
  if e.profile_state ≠ "Disabled" then
    (({ e with profile_state := "Disabled" }).log_event ts "Désactivation définitive du profil", true)
  else
    (e, false)

/-- Embeds `eSIM.add_data_usage`: unconditionally accumulates `amount` into
`data_usage` and logs `f"Consommation de {amount} Mo de données"`. -/
def ESIM.add_data_usage (e : ESIM) (amount : Int) (ts : String) : ESIM :=
  ({ e with data_usage := e.data_usage + amount }).log_event ts
    ("Consommation de " ++ toString amount ++ " Mo de données")

/-- Embeds `eSIM.reset_data_usage`: captures the old value, zeroes `data_usage`,
logs `f"Réinitialisation du compteur de données (ancien: {old_usage} Mo)"`. -/
def ESIM.reset_data_usage (e : ESIM) (ts : String) : ESIM :=
  ({ e with data_usage := 0 }).log_event ts
    ("Réinitialisation du compteur de données (ancien: " ++ toString e.data_usage ++ " Mo)")

/-- Embeds `eSIM.change_operator`: unconditionally replaces the operator and logs
`f"Changement d'opérateur: {old_operator} -> {new_operator}"`. -/
def ESIM.change_operator (e : ESIM) (new_operator ts : String) : ESIM :=
  ({ e with operator := new_operator }).log_event ts
    ("Changement d\x27opérateur: " ++ e.operator ++ " -> " ++ new_operator)

/-- Embeds `str(random.randint(0, 9))` for one draw: the draw is a natural number
the random source guarantees to be ≤ 9. -/
def digitStr (d : Nat) : String := toString d

/-- Embeds `''.join([str(random.randint(0, 9)) for _ in range(n)])` applied to
the list of draws. -/
def digitsJoin (draws : List Nat) : String := String.join (draws.map digitStr)

/-- Embeds `eSIM._generate_imsi`: `"208" + "01" +` 10 random digits. -/
def generate_imsi (msinDraws : List Nat) : String :=
  "208" ++ "01" ++ digitsJoin msinDraws

/-- Embeds `eSIM._generate_iccid`: `"8933" +` 15 random digits. -/
def generate_iccid (ccnDraws : List Nat) : String :=
  "8933" ++ digitsJoin ccnDraws

/-- Embeds `eSIM._generate_msisdn`: `"336" +` 8 random digits. -/
def generate_msisdn (draws : List Nat) : String :=
  "336" ++ digitsJoin draws

/-- Embeds `eSIM._generate_auth_key`: `hashlib.sha256(str(uuid.uuid4()).encode()).hexdigest()[:32]`.
The 64-character lowercase-hex digest produced by the library is the
parameter; the method keeps its first 32 characters. -/
def generate_auth_key (digest : String) : String :=
  String.mk (digest.data.take 32)

/-- Embeds `eSIM.__init__` as called by the application (all identifier arguments
left at `None`, so every generator runs): builds the record with state
`"Inactive"`, zero usage, limit `10000`, then logs `"Création de l'eSIM"`.
`operator=None` falls back to `"OpérateurDemo"`. -/
def mkESIM (msinDraws ccnDraws msisdnDraws : List Nat) (kiDigest opcDigest : String)
    (operator : Option String) (ts : String) : ESIM :=
  ESIM.log_event
    { imsi := generate_imsi msinDraws
      iccid := generate_iccid ccnDraws
      msisdn := generate_msisdn msisdnDraws
      operator := operator.getD "OpérateurDemo"
      profile_state := "Inactive"
      ki := generate_auth_key kiDigest
      opc := generate_auth_key opcDigest
      data_usage := 0
      data_limit := 10000
      events := [] }
    ts "Création de l\x27eSIM"

/-- The controller state that the command handlers read and write:
`self.esims` (ordered list, append-only) and `self.selected_esim`.
Python holds `selected_esim` as an object reference into `esims`;
since the list is append-only, a stable index represents it. -/
structure App where
  esims : List ESIM
  selected_esim : Option Nat
  deriving Repr, DecidableEq

/-- Result of the selection handler: either the index was valid, or the
`esims[index]` lookup raised `IndexError`, which the handler catches and
ignores (`except (IndexError, KeyError): pass`). -/
inductive SelectResult where
  | ok : SelectResult
  | outOfRange : SelectResult
  deriving Repr, DecidableEq

/-- Embeds `eSIMManagerApp.on_esim_select` (state part): a non-negative listbox
index in range sets `selected_esim` to that profile; an out-of-range index
raises `IndexError`, which is caught, leaving the selection unchanged. -/
def App.on_esim_select (app : App) (index : Nat) : App × SelectResult :=
  if index < app.esims.length then
    ({ app with selected_esim := some index }, SelectResult.ok)
  else
    (app, SelectResult.outOfRange)

/-- Embeds `eSIMManagerApp.create_new_esim` (the live, last definition): when the
dialog returns a truthy (non-empty) name, construct a fresh `eSIM` with
that operator, append it to `esims` and select it; a cancelled dialog
(`None`) or empty string does nothing. -/
def App.create_new_esim (app : App) (input : Option String)
    (msinDraws ccnDraws msisdnDraws : List Nat) (kiDigest opcDigest ts : String) : App :=
  match input with
  | none => app
  | some operator =>
    if operator ≠ "" then
      { esims := app.esims ++ [mkESIM msinDraws ccnDraws msisdnDraws kiDigest opcDigest (some operator) ts]
        selected_esim := some app.esims.length }
    else
      app

/-- Embeds `eSIMManagerApp.change_operator` (the live, last definition): requires
a selected profile; when the dialog returns a truthy (non-empty) name,
delegates to `eSIM.change_operator` on the selected profile. -/
def App.change_operator (app : App) (input : Option String) (ts : String) : App :=
  match app.selected_esim with
  | none => app
  | some i =>
    match app.esims.get? i with
    | none => app
    | some e =>
      match input with
      | none => app
      | some name =>
        if name ≠ "" then
          { app with esims := app.esims.set i (e.change_operator name ts) }
        else
          app

/-- Embeds `eSIMManagerApp.reset_data` (the live, last definition): requires a
selected profile; delegates to `eSIM.reset_data_usage` on it. -/
def App.reset_data (app : App) (ts : String) : App :=
  match app.selected_esim with
  | none => app
  | some i =>
    match app.esims.get? i with
    | none => app
    | some e => { app with esims := app.esims.set i (e.reset_data_usage ts) }

/-- Embeds `eSIMManagerApp.simulate_data_usage` (the live, last definition — the
10-second ticker): if a profile is selected and its state is `"Active"`,
add `random.randint(1, 20)` megabytes to it via `add_data_usage`;
otherwise do nothing.  The display refresh and the `root.after`
rescheduling touch no model state. -/
def App.simulate_data_usage (app : App) (r : Int) (ts : String) : App :=
  match app.selected_esim with
  | none => app
  | some i =>
    match app.esims.get? i with
    | none => app
    | some e =>
      if e.profile_state = "Active" then
        { app with esims := app.esims.set i (e.add_data_usage r ts) }
      else
        app


/-- Embeds `eSIM.reset_data_usage` callers' observation helper: `sub` occurs
as a contiguous substring of `s`. -/
def containsSub (s sub : String) : Prop := ∃ a b, s = a ++ sub ++ b

lemma containsSub_appendL (t s sub : String) (h : containsSub s sub) :
    containsSub (t ++ s) sub := by
  obtain ⟨a, b, rfl⟩ := h
  exact ⟨t ++ a, b, by simp [String.append_assoc]⟩

/-- A concrete 64-character lowercase-hex digest, standing for one outcome
of `sha256(...).hexdigest()`. -/
def demoDigest : String :=
  "0123456789abcdef0123456789abcdef0123456789abcdef0123456789abcdef"

/-- A concrete freshly-created profile (one fixed outcome of the random
source), operator `"Orange"`. -/
def demoProfile : ESIM :=
  mkESIM [0,1,2,3,4,5,6,7,8,9] [0,1,2,3,4,5,6,7,8,9,0,1,2,3,4] [0,1,2,3,4,5,6,7]
    demoDigest demoDigest (some "Orange") "2026-01-01 10:00:00"

/-- The same concrete profile after `disable()`. -/
def demoDisabled : ESIM := (demoProfile.disable "2026-01-01 10:00:01").1

/-- C1: `activate()` succeeds iff the current state is not `"Active"`; on
success it sets the state to `"Active"`, appends exactly one
`"Activation du profil"` event and returns success (`True`); when the
state is already `"Active"` it returns the `False` no-op signal and
changes nothing, appending no event. -/
theorem activate_spec (e : ESIM) (ts : String) :
    ((e.activate ts).2 = true ↔ e.profile_state ≠ "Active")
    ∧ (e.profile_state ≠ "Active" →
        (e.activate ts).1 =
          { e with
              profile_state := "Active",
              events := e.events ++ ["[" ++ ts ++ "] " ++ "Activation du profil"] })
    ∧ (e.profile_state = "Active" →
        (e.activate ts).1 = e ∧ (e.activate ts).2 = false) := by
  by_cases h : e.profile_state = "Active" <;>
    simp [ESIM.activate, ESIM.log_event, h]

theorem activate_spec_witness :
    demoProfile.profile_state ≠ "Active"
    ∧ (demoProfile.activate "t").2 = true
    ∧ (demoProfile.activate "t").1 =
      { demoProfile with
          profile_state := "Active",
          events := demoProfile.events ++ ["[" ++ "t" ++ "] " ++ "Activation du profil"] } := by
  have h := activate_spec demoProfile "t"
  have hs : demoProfile.profile_state ≠ "Active" := by decide
  exact ⟨hs, h.1.mpr hs, h.2.1 hs⟩

/-- C9: `"Disabled"` is not terminal at the profile level: from state
`"Disabled"`, `activate()` succeeds to `"Active"` and `deactivate()`
succeeds to `"Inactive"`, each appending exactly its usual single event. -/
theorem disabled_not_terminal (e : ESIM) (ts ts2 : String)
    (h : e.profile_state = "Disabled") :
    (e.activate ts).2 = true
    ∧ (e.activate ts).1.profile_state = "Active"
    ∧ (e.activate ts).1.events = e.events ++ ["[" ++ ts ++ "] " ++ "Activation du profil"]
    ∧ (e.deactivate ts2).2 = true
    ∧ (e.deactivate ts2).1.profile_state = "Inactive"
    ∧ (e.deactivate ts2).1.events = e.events ++ ["[" ++ ts2 ++ "] " ++ "Désactivation du profil"] := by
  simp [ESIM.activate, ESIM.deactivate, ESIM.log_event, h]

theorem disabled_not_terminal_witness :
    demoDisabled.profile_state = "Disabled"
    ∧ (demoDisabled.activate "t").2 = true
    ∧ (demoDisabled.activate "t").1.profile_state = "Active"
    ∧ (demoDisabled.deactivate "u").2 = true
    ∧ (demoDisabled.deactivate "u").1.profile_state = "Inactive" := by
  have hd : demoDisabled.profile_state = "Disabled" := by decide
  have h := disabled_not_terminal demoDisabled "t" "u" hd
  exact ⟨hd, h.1, h.2.1, h.2.2.2.1, h.2.2.2.2.1⟩

/-- C5: on any freshly constructed profile, `add_data_usage 1250` followed by
`add_data_usage 450` yields `data_usage = 1700`; a subsequent
`reset_data_usage` sets `data_usage` to `0` and appends exactly one event
whose text contains the pre-reset value `"1700"`. -/
theorem usage_add_add_reset (m c s : List Nat) (k o : String) (op : Option String)
    (t0 t1 t2 t3 : String) :
    (((mkESIM m c s k o op t0).add_data_usage 1250 t1).add_data_usage 450 t2).data_usage = 1700
    ∧ ((((mkESIM m c s k o op t0).add_data_usage 1250 t1).add_data_usage 450 t2).reset_data_usage t3).data_usage = 0
    ∧ ((((mkESIM m c s k o op t0).add_data_usage 1250 t1).add_data_usage 450 t2).reset_data_usage t3).events
        = (((mkESIM m c s k o op t0).add_data_usage 1250 t1).add_data_usage 450 t2).events
          ++ ["[" ++ t3 ++ "] " ++
              ("Réinitialisation du compteur de données (ancien: " ++ toString (1700 : Int) ++ " Mo)")]
    ∧ containsSub ("[" ++ t3 ++ "] " ++
        ("Réinitialisation du compteur de données (ancien: " ++ toString (1700 : Int) ++ " Mo)"))
        "1700" := by
  have hu : (((mkESIM m c s k o op t0).add_data_usage 1250 t1).add_data_usage 450 t2).data_usage
      = 1700 := by
    simp [mkESIM, ESIM.add_data_usage, ESIM.log_event]
  refine ⟨hu, ?_, ?_, ?_⟩
  · simp [ESIM.reset_data_usage, ESIM.log_event]
  · simp [ESIM.reset_data_usage, ESIM.log_event, hu]
  · refine ⟨"[" ++ t3 ++ "] " ++ "Réinitialisation du compteur de données (ancien: ",
      " Mo)", ?_⟩
    have h17 : toString (1700 : Int) = "1700" := by decide
    rw [h17]
    simp [String.append_assoc]

/-- C4 counterexample: `add_data_usage` called with the negative amount `-5`
on a fresh profile does not return any `InvalidInput` failure — it adds the
amount (yielding `data_usage = -5`) and appends an event, contradicting the
claim that data usage and the event log stay unchanged. -/
theorem add_data_usage_negative_cex :
    (demoProfile.add_data_usage (-5) "t").data_usage = -5
    ∧ (demoProfile.add_data_usage (-5) "t").events
        = demoProfile.events ++ ["[" ++ "t" ++ "] " ++ "Consommation de -5 Mo de données"] := by
  decide

/-- C4 (amended): `add_data_usage` performs no input validation — for every
amount, negative included, it accumulates the amount into `data_usage` and
appends exactly one event containing the exact amount as supplied, leaving
the operator and the state unchanged; no `InvalidInput` rejection exists. -/
theorem add_data_usage_spec (e : ESIM) (amount : Int) (ts : String) :
    (e.add_data_usage amount ts).data_usage = e.data_usage + amount
    ∧ (e.add_data_usage amount ts).events
        = e.events ++ ["[" ++ ts ++ "] " ++
            ("Consommation de " ++ toString amount ++ " Mo de données")]
    ∧ containsSub
        ("[" ++ ts ++ "] " ++ ("Consommation de " ++ toString amount ++ " Mo de données"))
        (toString amount)
    ∧ (e.add_data_usage amount ts).operator = e.operator
    ∧ (e.add_data_usage amount ts).profile_state = e.profile_state := by
  refine ⟨by simp [ESIM.add_data_usage, ESIM.log_event],
    by simp [ESIM.add_data_usage, ESIM.log_event], ?_,
    by simp [ESIM.add_data_usage, ESIM.log_event],
    by simp [ESIM.add_data_usage, ESIM.log_event]⟩
  refine ⟨"[" ++ ts ++ "] " ++ "Consommation de ", " Mo de données", ?_⟩
  simp only [String.append_assoc]

/-- C8 counterexample: the profile-level `change_operator` applied with the
empty name does not return `InvalidInput` and does not leave the profile
unchanged — it sets the operator to `""` and appends an event. -/
theorem change_operator_empty_cex :
    (demoProfile.change_operator "" "t").operator = ""
    ∧ (demoProfile.change_operator "" "t").events
        = demoProfile.events
          ++ ["[" ++ "t" ++ "] " ++ "Changement d\x27opérateur: Orange -> "] := by
  decide

/-- C8 (amended): `change_operator` with any name — empty included —
replaces the operator and appends exactly one event recording the old and
the new value, leaving state and usage unchanged; at the app command
surface an empty or cancelled dialog input leaves the whole state
unchanged (the empty input is silently filtered by the truthiness test,
with no typed `InvalidInput` result anywhere). -/
theorem change_operator_spec (e : ESIM) (name ts : String)
    (app : App) (ts2 : String) :
    (e.change_operator name ts).operator = name
    ∧ (e.change_operator name ts).events
        = e.events ++ ["[" ++ ts ++ "] " ++
            ("Changement d\x27opérateur: " ++ e.operator ++ " -> " ++ name)]
    ∧ (e.change_operator name ts).profile_state = e.profile_state
    ∧ (e.change_operator name ts).data_usage = e.data_usage
    ∧ app.change_operator none ts2 = app
    ∧ app.change_operator (some "") ts2 = app := by
  refine ⟨by simp [ESIM.change_operator, ESIM.log_event],
    by simp [ESIM.change_operator, ESIM.log_event],
    by simp [ESIM.change_operator, ESIM.log_event],
    by simp [ESIM.change_operator, ESIM.log_event], ?_, ?_⟩
  · unfold App.change_operator
    split
    · rfl
    · split
      · rfl
      · rfl
  · unfold App.change_operator
    split
    · rfl
    · split
      · rfl
      · simp

/-- A second concrete freshly-created profile, operator `"SFR"`. -/
def demoProfileB : ESIM :=
  mkESIM [9,8,7,6,5,4,3,2,1,0] [9,8,7,6,5,4,3,2,1,0,9,8,7,6,5] [7,6,5,4,3,2,1]
    demoDigest demoDigest (some "SFR") "2026-01-01 10:00:02"

/-- The first concrete profile after `activate()`. -/
def cexActiveA : ESIM := (demoProfile.activate "2026-01-01 10:00:03").1

/-- The second concrete profile after `activate()`. -/
def cexActiveB : ESIM := (demoProfileB.activate "2026-01-01 10:00:04").1

/-- A concrete controller state with two Active profiles, the first one
selected. -/
def cexApp : App := { esims := [cexActiveA, cexActiveB], selected_esim := some 0 }

/-- The registry scenario of C7: starting from an empty controller state,
`create("Orange")` then `create("SFR")` (arbitrary randomness outcomes). -/
def twoProfileApp (m1 c1 s1 : List Nat) (k1 o1 t1 : String)
    (m2 c2 s2 : List Nat) (k2 o2 t2 : String) : App :=
  ((App.mk [] none).create_new_esim (some "Orange") m1 c1 s1 k1 o1 t1).create_new_esim
    (some "SFR") m2 c2 s2 k2 o2 t2

/-- C7: `on_esim_select` with an index outside `[0, n)` leaves the state
(including the selected reference) unchanged with the out-of-range
signal; an index in `[0, n)` selects the index-th profile in insertion
order; and in the concrete scenario `create("Orange")`, `create("SFR")`,
`select(1)`, the selected profile's operator is `"SFR"`, while `select(5)`
on that 2-element registry fails and changes nothing. -/
theorem select_spec (app : App) (index : Nat)
    (m1 c1 s1 : List Nat) (k1 o1 t1 : String)
    (m2 c2 s2 : List Nat) (k2 o2 t2 : String) :
    (app.esims.length ≤ index →
      app.on_esim_select index = (app, SelectResult.outOfRange))
    ∧ (index < app.esims.length →
        (app.on_esim_select index).1.selected_esim = some index
        ∧ (app.on_esim_select index).1.esims = app.esims
        ∧ (app.on_esim_select index).2 = SelectResult.ok)
    ∧ (((twoProfileApp m1 c1 s1 k1 o1 t1 m2 c2 s2 k2 o2 t2).on_esim_select 1).1.selected_esim.bind
        (fun i => ((twoProfileApp m1 c1 s1 k1 o1 t1 m2 c2 s2 k2 o2 t2).on_esim_select 1).1.esims.get? i)).map
          ESIM.operator = some "SFR"
    ∧ (twoProfileApp m1 c1 s1 k1 o1 t1 m2 c2 s2 k2 o2 t2).on_esim_select 5
        = (twoProfileApp m1 c1 s1 k1 o1 t1 m2 c2 s2 k2 o2 t2, SelectResult.outOfRange) := by
  refine ⟨?_, ?_, ?_, ?_⟩
  · intro h
    simp [App.on_esim_select, Nat.not_lt.mpr h]
  · intro h
    simp [App.on_esim_select, h]
  · simp [twoProfileApp, App.create_new_esim, App.on_esim_select, mkESIM, ESIM.log_event,
      show ("Orange" : String) ≠ "" from by decide, show ("SFR" : String) ≠ "" from by decide]
  · simp [twoProfileApp, App.create_new_esim, App.on_esim_select,
      show ("Orange" : String) ≠ "" from by decide, show ("SFR" : String) ≠ "" from by decide]

theorem select_spec_witness :
    cexApp.esims.length ≤ 5
    ∧ cexApp.on_esim_select 5 = (cexApp, SelectResult.outOfRange) := by
  have h := select_spec cexApp 5 [] [] [] "" "" "" [] [] [] "" "" ""
  exact ⟨by decide, h.1 (by decide)⟩

/-- C2 counterexample: with two profiles both in state `"Active"` and the
first one selected, one firing of the live ticker leaves the second
Active profile completely untouched (its usage is still `0` and its event
log is unchanged), contradicting the claim that every Active profile
receives usage on each firing. -/
theorem ticker_not_all_active_cex :
    cexActiveB.profile_state = "Active"
    ∧ (cexApp.simulate_data_usage 5 "t").esims.get? 1 = some cexActiveB
    ∧ cexActiveB.data_usage = 0 := by decide

/-- C2 (amended): a firing of the live (last-defined) ticker adds usage
only to the currently selected profile, and only when that profile's
state is `"Active"`: the selected profile then receives the drawn amount
`r ∈ [1, 20]` through `add_data_usage` (which logs the usage event
exactly as `add_data_usage` always does), every other profile receives
nothing, and when the selected profile is not Active the whole state is
unchanged. -/
theorem ticker_selected_only (app : App) (r : Int) (ts : String) (i : Nat) (e : ESIM)
    (_hr : 1 ≤ r ∧ r ≤ 20) (hsel : app.selected_esim = some i)
    (hget : app.esims.get? i = some e) :
    (e.profile_state = "Active" →
      (app.simulate_data_usage r ts).esims.get? i = some (e.add_data_usage r ts)
      ∧ ∀ j, j ≠ i → (app.simulate_data_usage r ts).esims.get? j = app.esims.get? j)
    ∧ (e.profile_state ≠ "Active" → app.simulate_data_usage r ts = app) := by
  have hilt : i < app.esims.length := (List.get?_eq_some.mp hget).1
  have hget2 : app.esims[i]? = some e := by
    rw [← List.get?_eq_getElem?]
    exact hget
  constructor
  · intro hact
    unfold App.simulate_data_usage
    rw [hsel]
    constructor
    · simp [hget2, hact, List.getElem?_set_eq_of_lt _ hilt]
    · intro j hj
      simp [hget2, hact, List.getElem?_set_ne (Ne.symm hj)]
  · intro hact
    unfold App.simulate_data_usage
    rw [hsel]
    simp [hget2, hact]

theorem ticker_selected_only_witness :
    cexApp.selected_esim = some 0
    ∧ cexApp.esims.get? 0 = some cexActiveA
    ∧ (cexApp.simulate_data_usage 5 "u").esims.get? 0 = some (cexActiveA.add_data_usage 5 "u")
    ∧ (cexApp.simulate_data_usage 5 "u").esims.get? 1 = cexApp.esims.get? 1 := by
  have h := ticker_selected_only cexApp 5 "u" 0 cexActiveA (by decide) rfl (by decide)
  have ha := h.1 (by decide)
  exact ⟨rfl, by decide, ha.1, ha.2 1 (by decide)⟩

/-- C10: a single firing of the live (last-defined) ticker mutates at most
the currently selected profile, and only when its state is `"Active"`:
that profile's `data_usage` grows by the drawn integer `r ∈ [1, 20]` and
its event log gains exactly one appended entry, while its state, operator,
identifiers, auth keys and `data_limit` are kept; every other profile, the
length of the profile list and the selected reference are unchanged; with
no selection, or a non-Active selected profile, nothing changes at all. -/
theorem ticker_frame (app : App) (r : Int) (ts : String) (hr : 1 ≤ r ∧ r ≤ 20) :
    (app.simulate_data_usage r ts).selected_esim = app.selected_esim
    ∧ (app.simulate_data_usage r ts).esims.length = app.esims.length
    ∧ (∀ i e, app.selected_esim = some i → app.esims.get? i = some e →
        e.profile_state = "Active" →
          (app.simulate_data_usage r ts).esims.get? i = some
            { e with
                data_usage := e.data_usage + r,
                events := e.events ++ ["[" ++ ts ++ "] " ++
                  ("Consommation de " ++ toString r ++ " Mo de données")] }
          ∧ e.data_usage + 1 ≤ e.data_usage + r
          ∧ e.data_usage + r ≤ e.data_usage + 20
          ∧ (∀ j, j ≠ i → (app.simulate_data_usage r ts).esims.get? j = app.esims.get? j))
    ∧ (∀ i e, app.selected_esim = some i → app.esims.get? i = some e →
        e.profile_state ≠ "Active" → app.simulate_data_usage r ts = app)
    ∧ (app.selected_esim = none → app.simulate_data_usage r ts = app) := by
  refine ⟨?_, ?_, ?_, ?_, ?_⟩
  · unfold App.simulate_data_usage
    cases hsel : app.selected_esim with
    | none => exact hsel
    | some i =>
      cases hget : app.esims.get? i with
      | none =>
        rw [List.get?_eq_getElem?] at hget
        simp [hget, hsel]
      | some e =>
        rw [List.get?_eq_getElem?] at hget
        by_cases hact : e.profile_state = "Active" <;> simp [hget, hact, hsel]
  · unfold App.simulate_data_usage
    cases hsel : app.selected_esim with
    | none => rfl
    | some i =>
      cases hget : app.esims.get? i with
      | none => rw [List.get?_eq_getElem?] at hget; simp [hget]
      | some e =>
        rw [List.get?_eq_getElem?] at hget
        by_cases hact : e.profile_state = "Active" <;> simp [hget, hact]
  · intro i e hsel hget hact
    have hilt : i < app.esims.length := (List.get?_eq_some.mp hget).1
    rw [List.get?_eq_getElem?] at hget
    unfold App.simulate_data_usage
    rw [hsel]
    refine ⟨?_, by omega, by omega, ?_⟩
    · simp [hget, hact, List.getElem?_set_eq_of_lt _ hilt, ESIM.add_data_usage, ESIM.log_event]
    · intro j hj
      simp [hget, hact, List.getElem?_set_ne (Ne.symm hj)]
  · intro i e hsel hget hact
    rw [List.get?_eq_getElem?] at hget
    unfold App.simulate_data_usage
    rw [hsel]
    simp [hget, hact]
  · intro hsel
    unfold App.simulate_data_usage
    rw [hsel]

theorem ticker_frame_witness :
    (1 ≤ (5 : Int) ∧ (5 : Int) ≤ 20)
    ∧ (cexApp.simulate_data_usage 5 "u").selected_esim = cexApp.selected_esim
    ∧ (cexApp.simulate_data_usage 5 "u").esims.length = cexApp.esims.length := by
  have h := ticker_frame cexApp 5 "u" (by decide)
  exact ⟨by decide, h.1, h.2.1⟩

/-- One operation of the public mutating surface on a single profile, with
its environment inputs (timestamps, the ticker draw) made explicit. -/
inductive Op where
  | activateOp (ts : String)
  | deactivateOp (ts : String)
  | disableOp (ts : String)
  | addDataOp (amount : Int) (ts : String)
  | resetDataOp (ts : String)
  | changeOperatorOp (name ts : String)
  | logEventOp (description ts : String)
  | tickOp (r : Int) (ts : String)
  deriving Repr, DecidableEq

/-- Applies one operation to a profile exactly as the corresponding source
method does; `tickOp` is the live ticker firing as seen by the selected
profile (usage added only in state `"Active"`). -/
def ESIM.applyOp (e : ESIM) : Op → ESIM
  | Op.activateOp ts => (e.activate ts).1
  | Op.deactivateOp ts => (e.deactivate ts).1
  | Op.disableOp ts => (e.disable ts).1
  | Op.addDataOp amount ts => e.add_data_usage amount ts
  | Op.resetDataOp ts => e.reset_data_usage ts
  | Op.changeOperatorOp name ts => e.change_operator name ts
  | Op.logEventOp description ts => e.log_event ts description
  | Op.tickOp r ts => if e.profile_state = "Active" then e.add_data_usage r ts else e

/-- The input constraints under which the spec states the usage invariant:
a non-negative `addDataUsage` amount, and a ticker draw in the
`randint(1, 20)` range. -/
def Op.valid : Op → Bool
  | Op.addDataOp amount _ => decide (0 ≤ amount)
  | Op.tickOp r _ => decide (1 ≤ r ∧ r ≤ 20)
  | _ => true

/-- Recognizes the explicit reset operation. -/
def Op.isReset : Op → Bool
  | Op.resetDataOp _ => true
  | _ => false

/-- Applies a sequence of operations left to right. -/
def ESIM.applyOps (e : ESIM) (ops : List Op) : ESIM := ops.foldl ESIM.applyOp e

lemma applyOp_nonneg (e : ESIM) (op : Op) (h0 : 0 ≤ e.data_usage)
    (hv : op.valid = true) : 0 ≤ (e.applyOp op).data_usage := by
  cases op with
  | activateOp ts =>
    show 0 ≤ (e.activate ts).1.data_usage
    unfold ESIM.activate
    split <;> simp [ESIM.log_event, h0]
  | deactivateOp ts =>
    show 0 ≤ (e.deactivate ts).1.data_usage
    unfold ESIM.deactivate
    split <;> simp [ESIM.log_event, h0]
  | disableOp ts =>
    show 0 ≤ (e.disable ts).1.data_usage
    unfold ESIM.disable
    split <;> simp [ESIM.log_event, h0]
  | addDataOp a ts =>
    simp only [Op.valid, decide_eq_true_eq] at hv
    show 0 ≤ (e.add_data_usage a ts).data_usage
    simp [ESIM.add_data_usage, ESIM.log_event]
    omega
  | resetDataOp ts =>
    show 0 ≤ (e.reset_data_usage ts).data_usage
    simp [ESIM.reset_data_usage, ESIM.log_event]
  | changeOperatorOp n ts =>
    show 0 ≤ (e.change_operator n ts).data_usage
    simp [ESIM.change_operator, ESIM.log_event, h0]
  | logEventOp d ts =>
    show 0 ≤ (e.log_event ts d).data_usage
    simp [ESIM.log_event, h0]
  | tickOp r ts =>
    simp only [Op.valid, decide_eq_true_eq] at hv
    show 0 ≤ (if e.profile_state = "Active" then e.add_data_usage r ts else e).data_usage
    split
    · simp [ESIM.add_data_usage, ESIM.log_event]
      omega
    · exact h0

lemma applyOp_mono (e : ESIM) (op : Op) (hv : op.valid = true)
    (hnr : op.isReset = false) : e.data_usage ≤ (e.applyOp op).data_usage := by
  cases op with
  | activateOp ts =>
    show e.data_usage ≤ (e.activate ts).1.data_usage
    unfold ESIM.activate
    split <;> simp [ESIM.log_event]
  | deactivateOp ts =>
    show e.data_usage ≤ (e.deactivate ts).1.data_usage
    unfold ESIM.deactivate
    split <;> simp [ESIM.log_event]
  | disableOp ts =>
    show e.data_usage ≤ (e.disable ts).1.data_usage
    unfold ESIM.disable
    split <;> simp [ESIM.log_event]
  | addDataOp a ts =>
    simp only [Op.valid, decide_eq_true_eq] at hv
    show e.data_usage ≤ (e.add_data_usage a ts).data_usage
    simp [ESIM.add_data_usage, ESIM.log_event]
    omega
  | resetDataOp ts =>
    simp [Op.isReset] at hnr
  | changeOperatorOp n ts =>
    show e.data_usage ≤ (e.change_operator n ts).data_usage
    simp [ESIM.change_operator, ESIM.log_event]
  | logEventOp d ts =>
    show e.data_usage ≤ (e.log_event ts d).data_usage
    simp [ESIM.log_event]
  | tickOp r ts =>
    simp only [Op.valid, decide_eq_true_eq] at hv
    show e.data_usage ≤ (if e.profile_state = "Active" then e.add_data_usage r ts else e).data_usage
    split
    · simp [ESIM.add_data_usage, ESIM.log_event]
      omega
    · exact le_refl _

lemma applyOps_append (e : ESIM) (l1 l2 : List Op) :
    e.applyOps (l1 ++ l2) = (e.applyOps l1).applyOps l2 := by
  simp [ESIM.applyOps, List.foldl_append]

lemma applyOps_nonneg (e : ESIM) (ops : List Op) (h0 : 0 ≤ e.data_usage)
    (hv : ∀ op ∈ ops, op.valid = true) : 0 ≤ (e.applyOps ops).data_usage := by
  induction ops generalizing e with
  | nil => simpa [ESIM.applyOps] using h0
  | cons op t ih =>
    have h1 := applyOp_nonneg e op h0 (hv op (by simp))
    have h2 := ih (e.applyOp op) h1 (fun o ho => hv o (by simp [ho]))
    simpa [ESIM.applyOps] using h2

/-- C3 counterexample: nothing validates the amount passed to
`add_data_usage`; the one-operation sequence `addDataUsage(-1)` on a fresh
profile drives `data_usage` to `-1 < 0`, refuting the unconditional
non-negativity invariant over the public surface. -/
theorem data_usage_negative_cex :
    (demoProfile.applyOps [Op.addDataOp (-1) "t"]).data_usage = -1
    ∧ (demoProfile.applyOps [Op.addDataOp (-1) "t"]).data_usage < 0 := by
  decide

/-- C3 (amended): provided every `addDataUsage` amount supplied is
non-negative (the validation the spec prescribes but the code omits; all
in-repo callers do supply non-negative amounts) and ticker draws lie in
`[1, 20]`, `data_usage ≥ 0` holds after every prefix of any sequence of
public operations, and `data_usage` never decreases across an operation
other than an explicit `reset_data_usage`. -/
theorem data_usage_invariant (e : ESIM) (ops : List Op)
    (h0 : 0 ≤ e.data_usage) (hv : ∀ op ∈ ops, op.valid = true) :
    (∀ l1 l2, ops = l1 ++ l2 → 0 ≤ (e.applyOps l1).data_usage)
    ∧ (∀ l1 op l2, ops = l1 ++ op :: l2 → op.isReset = false →
        (e.applyOps l1).data_usage ≤ (e.applyOps (l1 ++ [op])).data_usage) := by
  constructor
  · intro l1 l2 hsplit
    refine applyOps_nonneg e l1 h0 ?_
    intro op hop
    exact hv op (by simp [hsplit, hop])
  · intro l1 op l2 hsplit hnr
    rw [applyOps_append]
    have hvv : op.valid = true := hv op (by simp [hsplit])
    have hm := applyOp_mono (e.applyOps l1) op hvv hnr
    simpa [ESIM.applyOps] using hm

theorem data_usage_invariant_witness :
    0 ≤ demoProfile.data_usage
    ∧ (∀ op ∈ [Op.addDataOp 5 "t1", Op.tickOp 3 "t2", Op.resetDataOp "t3"],
        op.valid = true)
    ∧ 0 ≤ (demoProfile.applyOps [Op.addDataOp 5 "t1", Op.tickOp 3 "t2"]).data_usage := by
  refine ⟨by decide, by decide, ?_⟩
  exact (data_usage_invariant demoProfile
      [Op.addDataOp 5 "t1", Op.tickOp 3 "t2", Op.resetDataOp "t3"]
      (by decide) (by decide)).1
    [Op.addDataOp 5 "t1", Op.tickOp 3 "t2"] [Op.resetDataOp "t3"] rfl

/-- Characters of a lowercase hexadecimal string: a decimal digit or one
of `a`–`f`. -/
def isHexLowerChar (c : Char) : Bool :=
  c.isDigit || (97 ≤ c.toNat && c.toNat ≤ 102)

lemma digitStr_spec (d : Nat) (h : d ≤ 9) :
    (digitStr d).data.length = 1 ∧ ∀ c ∈ (digitStr d).data, c.isDigit = true := by
  interval_cases d <;> exact ⟨rfl, by decide⟩

lemma foldl_append_data (l : List String) (acc : String) :
    (l.foldl (fun r s => r ++ s) acc).data = acc.data ++ (l.map String.data).flatten := by
  induction l generalizing acc with
  | nil => simp
  | cons h t ih => simp [ih, String.data_append]

lemma digitsJoin_data (draws : List Nat) :
    (digitsJoin draws).data = ((draws.map digitStr).map String.data).flatten := by
  have h := foldl_append_data (draws.map digitStr) ""
  simpa [digitsJoin, String.join] using h

lemma digitsJoin_length (draws : List Nat) (h : ∀ d ∈ draws, d ≤ 9) :
    (digitsJoin draws).data.length = draws.length := by
  induction draws with
  | nil => rfl
  | cons d t ih =>
    have hd := (digitStr_spec d (h d (by simp))).1
    have ht := ih (fun x hx => h x (by simp [hx]))
    rw [digitsJoin_data] at ht ⊢
    simp only [List.map_cons, List.flatten_cons, List.length_append, List.length_cons, hd, ht]
    omega

lemma digitsJoin_digits (draws : List Nat) (h : ∀ d ∈ draws, d ≤ 9) :
    ∀ c ∈ (digitsJoin draws).data, c.isDigit = true := by
  induction draws with
  | nil =>
    intro c hc
    rw [digitsJoin_data] at hc
    simp at hc
  | cons d t ih =>
    intro c hc
    rw [digitsJoin_data] at hc
    simp only [List.map_cons, List.flatten_cons, List.mem_append] at hc
    rcases hc with hc | hc
    · exact (digitStr_spec d (h d (by simp))).2 c hc
    · refine ih (fun x hx => h x (by simp [hx])) c ?_
      rw [digitsJoin_data]
      exact hc

lemma litJoin_spec (lit : String) (draws : List Nat) (hd : ∀ d ∈ draws, d ≤ 9)
    (hlit : ∀ c ∈ lit.data, c.isDigit = true) :
    (lit ++ digitsJoin draws).length = lit.length + draws.length
    ∧ (lit ++ digitsJoin draws).data.take lit.data.length = lit.data
    ∧ (∀ c ∈ (lit ++ digitsJoin draws).data, c.isDigit = true) := by
  have hdata : (lit ++ digitsJoin draws).data = lit.data ++ (digitsJoin draws).data :=
    String.data_append _ _
  refine ⟨?_, ?_, ?_⟩
  · show (lit ++ digitsJoin draws).data.length = lit.length + draws.length
    rw [hdata, List.length_append, digitsJoin_length draws hd]
    rfl
  · rw [hdata]
    exact List.take_left _ _
  · intro c hc
    rw [hdata, List.mem_append] at hc
    rcases hc with hc | hc
    · exact hlit c hc
    · exact digitsJoin_digits draws hd c hc

/-- C6: for every outcome of the random source, the generated IMSI is a
15-digit string whose first five characters are `"20801"` (so it matches
`^208\d\{2\}\d\{10\}$`), the ICCID is a 19-digit string whose first four
characters are `"8933"` (matching `^8933\d\{15\}$`), the MSISDN is an
11-digit string whose first three characters are `"336"` (matching
`^336\d\{8\}$`), and a generated auth key — the first 32 characters of a
sha256 hexdigest — is a 32-character lowercase-hexadecimal string. -/
theorem generators_shape (msin ccn msisdnDraws : List Nat) (kiDigest : String)
    (hm : msin.length = 10) (hmd : ∀ d ∈ msin, d ≤ 9)
    (hc : ccn.length = 15) (hcd : ∀ d ∈ ccn, d ≤ 9)
    (hs : msisdnDraws.length = 8) (hsd : ∀ d ∈ msisdnDraws, d ≤ 9)
    (hk : kiDigest.data.length = 64)
    (hkh : ∀ c ∈ kiDigest.data, isHexLowerChar c = true) :
    ((generate_imsi msin).length = 15
      ∧ (generate_imsi msin).data.take 5 = "20801".data
      ∧ ∀ c ∈ (generate_imsi msin).data, c.isDigit = true)
    ∧ ((generate_iccid ccn).length = 19
      ∧ (generate_iccid ccn).data.take 4 = "8933".data
      ∧ ∀ c ∈ (generate_iccid ccn).data, c.isDigit = true)
    ∧ ((generate_msisdn msisdnDraws).length = 11
      ∧ (generate_msisdn msisdnDraws).data.take 3 = "336".data
      ∧ ∀ c ∈ (generate_msisdn msisdnDraws).data, c.isDigit = true)
    ∧ ((generate_auth_key kiDigest).length = 32
      ∧ ∀ c ∈ (generate_auth_key kiDigest).data, isHexLowerChar c = true) := by
  have himsi : generate_imsi msin = "20801" ++ digitsJoin msin := by
    unfold generate_imsi
    rw [show ("208" ++ "01" : String) = "20801" from by decide]
  have h1 := litJoin_spec "20801" msin hmd (by decide)
  have h2 := litJoin_spec "8933" ccn hcd (by decide)
  have h3 := litJoin_spec "336" msisdnDraws hsd (by decide)
  refine ⟨⟨?_, ?_, ?_⟩, ⟨?_, ?_, ?_⟩, ⟨?_, ?_, ?_⟩, ?_, ?_⟩
  · rw [himsi, h1.1, hm]
    decide
  · rw [himsi]
    exact h1.2.1
  · rw [himsi]
    exact h1.2.2
  · rw [show generate_iccid ccn = "8933" ++ digitsJoin ccn from rfl, h2.1, hc]
    decide
  · exact h2.2.1
  · exact h2.2.2
  · rw [show generate_msisdn msisdnDraws = "336" ++ digitsJoin msisdnDraws from rfl, h3.1, hs]
    decide
  · exact h3.2.1
  · exact h3.2.2
  · show (generate_auth_key kiDigest).data.length = 32
    unfold generate_auth_key
    rw [List.length_take, hk]
    decide
  · intro c hcmem
    refine hkh c ?_
    have hsub : (kiDigest.data.take 32) ⊆ kiDigest.data := List.take_subset _ _
    exact hsub hcmem

theorem generators_shape_witness :
    (generate_imsi [0,1,2,3,4,5,6,7,8,9]).length = 15
    ∧ (generate_imsi [0,1,2,3,4,5,6,7,8,9]).data.take 5 = "20801".data
    ∧ (generate_msisdn [0,1,2,3,4,5,6,7]).length = 11
    ∧ (generate_auth_key demoDigest).length = 32 := by
  have h := generators_shape [0,1,2,3,4,5,6,7,8,9] [0,1,2,3,4,5,6,7,8,9,0,1,2,3,4]
    [0,1,2,3,4,5,6,7] demoDigest (by decide) (by decide) (by decide) (by decide)
    (by decide) (by decide) (by decide) (by decide)
  exact ⟨h.1.1, h.1.2.1, h.2.2.1.1, h.2.2.2.1⟩

end Esim
